import Mathlib

/-!
Verification of the Pair synchronization layer (src/flexx/pair/pair.py).

This file shallowly embeds the data model and operations of the Pair
subsystem: the instance registry and id generation, the Python-side proxy
signal class JSSignal, the Python-side outbound propagation, the metaclass
proxy mirroring, and the JavaScript-side inbound handlers
(_set_signal_from_py, _signal_changed, _link_js_signal).

The reactive-signal primitive (the react module) and the value serializer
live outside the embedded sources; where their behaviour is needed the
definitions are modelled from the specification and marked as such in
their doc comments.  Everything else is translated directly from
src/flexx/pair/pair.py.
-/

/-- Values carried by signals.  The serializer treats values opaquely, so a
small closed universe suffices for the synchronization logic. -/
inductive Value where
  | vnull : Value
  | vbool : Bool → Value
  | vint : Int → Value
  | vstr : String → Value
deriving DecidableEq, Repr

/-- Little-endian decimal digits of a natural number; `fuel` bounds the
recursion depth (any `fuel ≥ n` yields the digits of `n`). -/
def natDigitsRev (fuel n : Nat) : List Nat :=
  match fuel with
  | 0 => []
  | f + 1 => if n = 0 then [] else n % 10 :: natDigitsRev f (n / 10)

/-- Value of a little-endian decimal digit list. -/
def ofDigitsRev : List Nat → Nat
  | [] => 0
  | d :: ds => d + 10 * ofDigitsRev ds

/-- Decimal string representation of a natural number, the embedding of
Python `str(n)` for a non-negative integer. -/
def natStr (n : Nat) : String :=
  if n = 0 then "0"
  else String.mk (((natDigitsRev n n).map Nat.digitChar).reverse)

/-- Modelled from the spec: the external serializer's `encode(value) -> text`
(`serializer.saves`; the serializer is an out-of-scope collaborator, consumed
as an opaque capability).  Only its existence matters to the claims. -/
def saves : Value → String
  | .vnull => "null"
  | .vbool true => "true"
  | .vbool false => "false"
  | .vint (.ofNat n) => natStr n
  | .vint (.negSucc n) => "-" ++ natStr (n + 1)
  | .vstr s => "\"" ++ s ++ "\""

/-- Modelled from the spec: the external serializer's `decode(text) -> value`
(`flexx.serializer.loads`).  The claims never inspect the decoded value
beyond passing it through, so any total decoding function suffices. -/
def loads (s : String) : Value :=
  if s = "null" then .vnull
  else if s = "true" then .vbool true
  else if s = "false" then .vbool false
  else .vstr s

/-- The remote-command vocabulary built by the Python side and executed by
the JS runtime (`self._proxy._exec(cmd)` with the command strings formatted
in pair.py):
construct, apply-value (`_set_signal_from_py`) and link-toggle
(`_link_js_signal`). -/
inductive Cmd where
  | construct : (instId : String) → (clsName : String) → Cmd
  | setSignalFromPy : (instId : String) → (sigName : String) → (txt : String) → Cmd
  | linkJsSignal : (instId : String) → (sigName : String) → (link : Bool) → Cmd
deriving DecidableEq, Repr

/-- The push message sent by the JS side over the websocket:
`SIGNAL <id> <signal_name> <encoded_value>`. -/
structure SignalMsg where
  id : String
  name : String
  txt : String
deriving DecidableEq, Repr

/-- Embedding of Python `name.startswith('_')`: whether the first character
is an underscore. -/
def startsWithUnderscore (s : String) : Bool :=
  match s.data with
  | [] => false
  | c :: _ => c = '_'

/- ## Python side -/

/-- A Python-side signal of a Pair instance as seen by `Pair._signal_changed`:
its name, its current value, and whether it is a `JSSignal` proxy
(`isinstance(signal, JSSignal)`). -/
structure PySideSignal where
  name : String
  isJSSignal : Bool
  value : Value
deriving DecidableEq, Repr

/-- `Pair._signal_changed` (pair.py lines 257-262): when a Python-side signal
changes, a JSSignal proxy produces nothing; any other signal produces exactly
one apply-command `_set_signal_from_py(name, serializer.saves(value))`
addressed to this instance, submitted fire-and-forget. -/
def Pair_signal_changed (selfId : String) (signal : PySideSignal) : List Cmd :=
  if ¬ signal.isJSSignal then
    [Cmd.setSignalFromPy selfId signal.name (saves signal.value)]
  else []

/-- `Pair._link_js_signal` (pair.py lines 264-276): emit the link-toggle
command for the named signal. -/
def Pair_link_js_signal (selfId : String) (name : String) (link : Bool) : Cmd :=
  Cmd.linkJsSignal selfId name link

/-- State of a Python-side `JSSignal` proxy (pair.py lines 42-67): its name,
the `_linked` flag set in `JSSignal.__init__`, and the `_downstream` list of
subscribed dependents maintained by `react.SourceSignal`.  Dependents are
identified by name. -/
structure JSSignalPyState where
  name : String
  _linked : Bool
  _downstream : List String
deriving DecidableEq, Repr

/-- Modelled from the spec: `react.SourceSignal._subscribe` (the react module
is not under src/).  Per the spec a signal keeps a set of dependents;
subscribing registers the dependent. -/
def SourceSignal_subscribe (s : JSSignalPyState) (d : String) : JSSignalPyState :=
  if s._downstream.contains d then s
  else { s with _downstream := s._downstream ++ [d] }

/-- Modelled from the spec: `react.SourceSignal._unsubscribe` (the react
module is not under src/).  Removes the dependent from the downstream set. -/
def SourceSignal_unsubscribe (s : JSSignalPyState) (d : String) : JSSignalPyState :=
  { s with _downstream := s._downstream.erase d }

/-- `JSSignal._subscribe` (pair.py lines 59-62): perform the base-class
subscribe, then, if `self._linked` is false, send a link notification via
`Pair._link_js_signal` (default `link=True`).  Returns the new signal state
and the commands sent. -/
def JSSignal_subscribe (pairId : String) (s : JSSignalPyState) (d : String) :
    JSSignalPyState × List Cmd :=
  let s1 := SourceSignal_subscribe s d
  if ¬ s1._linked then (s1, [Pair_link_js_signal pairId s1.name true])
  else (s1, [])

/-- `JSSignal._unsubscribe` (pair.py lines 64-67): perform the base-class
unsubscribe, then, if `self._linked` is set and `_downstream` is empty, send
an unlink notification. -/
def JSSignal_unsubscribe (pairId : String) (s : JSSignalPyState) (d : String) :
    JSSignalPyState × List Cmd :=
  let s1 := SourceSignal_unsubscribe s d
  if s1._linked ∧ s1._downstream.isEmpty then
    (s1, [Pair_link_js_signal pairId s1.name false])
  else (s1, [])

/-- Instance-id generation (pair.py line 221):
`self._id = self.__class__.__name__ + str(Pair._counter)`. -/
def mkId (clsName : String) (counter : Nat) : String :=
  clsName ++ natStr counter

/-- The ids issued by a sequence of Pair constructions starting from counter
value `c`: each construction first increments the process-wide counter
(`Pair._counter += 1`, pair.py line 220) and then forms its id from its class
name and the new counter value. -/
def construct_ids (c : Nat) : List String → List String
  | [] => []
  | n :: rest => mkId n (c + 1) :: construct_ids (c + 1) rest

/-- The process-wide mutable state of the Pair class: the instance counter
(`Pair._counter`) and the instance registry (`Pair._instances`), an
id-to-instance mapping.  Instances are represented by the counter value
issued at their construction.  The registry is an association list with
first-match lookup (Python dict semantics: later assignment of the same key
shadows, modelled by prepending). -/
structure PairGlobals where
  _counter : Nat
  _instances : List (String × Nat)
deriving DecidableEq, Repr

/-- `get_instance_by_id` (pair.py lines 32-36): `Pair._instances.get(id, None)`. -/
def get_instance_by_id (g : PairGlobals) (id : String) : Option Nat :=
  (g._instances.find? (fun p => p.1 == id)).map (fun p => p.2)

/-- Modelled from the spec: `Pair._instances` is a `weakref.WeakValueDictionary`,
so an entry vanishes when its instance is collected.  Collecting an instance
removes its registry entry. -/
def collect_instance (g : PairGlobals) (id : String) : PairGlobals :=
  { g with _instances := g._instances.filter (fun p => p.1 != id) }

/-- Observable steps of `Pair.__init__` in the order they occur. -/
inductive InitEvent where
  | registerInstance : (id : String) → InitEvent
  | execCmd : (c : Cmd) → InitEvent
  | initHook : InitEvent
  | initSignals : InitEvent
deriving DecidableEq, Repr

/-- `Pair.__init__` (pair.py lines 211-239): increment the counter, form the
id and register the instance (lines 219-222), send the remote-construction
command `flexx.instances.<id> = new <cls>(<id>)` (lines 230-233), call the
`_init` hook (line 235), then initialize the signals via
`react.HasSignals.__init__` (line 239).  Returns the new globals, the new id,
and the ordered trace of observable steps. -/
def Pair_init_steps (g : PairGlobals) (clsName : String) :
    PairGlobals × String × List InitEvent :=
  let c := g._counter + 1
  let id := mkId clsName c
  let g1 : PairGlobals := { _counter := c, _instances := (id, c) :: g._instances }
  (g1, id,
    [ InitEvent.registerInstance id,
      InitEvent.execCmd (Cmd.construct id clsName),
      InitEvent.initHook,
      InitEvent.initSignals ])

/-- The dictionary produced by `Pair.__json__` (pair.py lines 205-206):
a tag entry under key `__type__` and the instance id. -/
structure FlexxPairJson where
  typeTag : String
  id : String
deriving DecidableEq, Repr

/-- `Pair.__json__` (pair.py lines 205-206): encode a Pair reference as the
dictionary with `__type__` set to the string Flexx-Pair and the instance id. -/
def Pair_json (id : String) : FlexxPairJson :=
  { typeTag := "Flexx-Pair", id := id }

/-- `Pair.__from_json__` (pair.py lines 208-209), registered as the reviver
for the Flexx-Pair tag (line 360): decode by registry lookup. -/
def Pair_from_json (g : PairGlobals) (dct : FlexxPairJson) : Option Nat :=
  get_instance_by_id g dct.id

/- ## Class mirroring (PairMeta) -/

/-- A member of a class body as the metaclass distinguishes them:
a plain reactive signal (`react.Signal`, input-capable or not), a `JSSignal`
proxy, a `PySignal`/`PyInputSignal` proxy, or any non-signal attribute. -/
inductive Member where
  | plainSignal : (isInput : Bool) → Member
  | jsSignalProxy : Member
  | pySignalProxy : (isInput : Bool) → Member
  | nonSignal : Member
deriving DecidableEq, Repr

/-- `isinstance(val, react.Signal)`: true for plain signals and for both
proxy classes (they subclass `react.SourceSignal`). -/
def isSignalMember : Member → Bool
  | .nonSignal => false
  | _ => true

/-- `isinstance(val, JSSignal)`. -/
def isJSSignalProxy : Member → Bool
  | .jsSignalProxy => true
  | _ => false

/-- `isinstance(val, PySignal)` (also true for `PyInputSignal`, a subclass). -/
def isPySignalProxy : Member → Bool
  | .pySignalProxy _ => true
  | _ => false

/-- `isinstance(val, react.InputSignal)` for a plain signal. -/
def isInputMember : Member → Bool
  | .plainSignal i => i
  | _ => false

/-- Attribute lookup on a class: first match in the member list.  The lists
passed to the mirroring loops contain the visible members including inherited
ones (`hasattr` / `getattr` semantics). -/
def lookupMember (ms : List (String × Member)) (n : String) : Option Member :=
  (ms.find? (fun p => p.1 == n)).map (fun p => p.2)

/-- `PairMeta.__init__`, second loop (pair.py lines 126-137): for every
signal in the Python class body that is not a `JSSignal`, attach a
`PySignal` (or `PyInputSignal` for input signals) proxy to the JS class if
the name is free there; if the name is taken by a `PySignal` that is an
accepted overload; otherwise print a warning and skip.  Returns the updated
JS member list and the names warned about.  Attributes are attached as the
loop runs, so later iterations see earlier additions. -/
def mirrorPyToJS : List (String × Member) → List (String × Member) →
    List (String × Member) × List String
  | [], js => (js, [])
  | (n, v) :: rest, js =>
    if isSignalMember v && !(isJSSignalProxy v) then
      match lookupMember js n with
      | none =>
        mirrorPyToJS rest (js ++ [(n, Member.pySignalProxy (isInputMember v))])
      | some m =>
        if isPySignalProxy m then mirrorPyToJS rest js
        else
          let r := mirrorPyToJS rest js
          (r.1, n :: r.2)
    else mirrorPyToJS rest js

/-- `PairMeta.__init__`, first loop (pair.py lines 100-110): for every signal
in the JS class body that is not a `PySignal`, attach a `JSSignal` proxy to
the Python class if the name is free; an existing `JSSignal` is an accepted
overload; otherwise print a warning and skip. -/
def mirrorJSToPy : List (String × Member) → List (String × Member) →
    List (String × Member) × List String
  | [], py => (py, [])
  | (n, v) :: rest, py =>
    if isSignalMember v && !(isPySignalProxy v) then
      match lookupMember py n with
      | none =>
        mirrorJSToPy rest (py ++ [(n, Member.jsSignalProxy)])
      | some m =>
        if isJSSignalProxy m then mirrorJSToPy rest py
        else
          let r := mirrorJSToPy rest py
          (r.1, n :: r.2)
    else mirrorJSToPy rest py

/- ## JavaScript side (the Pair.JS class) -/

/-- A JS-side signal: its name, its `signal_type` string (the class name of
the signal, used by `_signal_changed` to recognize `PySignal` proxies), its
current value and its update timestamp. -/
structure JSSignalState where
  _name : String
  signal_type : String
  value : Value
  _timestamp : Nat
deriving DecidableEq, Repr

/-- State of a JS-side Pair instance (pair.py lines 291-306): its id, the
single `_signal_emit_lock` echo-suppression slot, the `_linked_signals`
set (a dict used as a set of names), and its signals. -/
structure PairJSState where
  id : String
  _signal_emit_lock : Bool
  _linked_signals : List String
  signals : List JSSignalState
deriving DecidableEq, Repr

/-- JS attribute access `self[name]` restricted to signals: the named signal
if it exists, else none (attribute access yields undefined). -/
def findSignal (p : PairJSState) (n : String) : Option JSSignalState :=
  p.signals.find? (fun s => s._name == n)

/-- Store a value into the named signal, advancing its timestamp. -/
def setSignalValue (p : PairJSState) (n : String) (v : Value) : PairJSState :=
  { p with signals := p.signals.map (fun s =>
      if s._name == n then { s with value := v, _timestamp := s._timestamp + 1 }
      else s) }

/-- `Pair.JS._signal_changed` (pair.py lines 317-329): if the websocket is
absent (`flexx.ws is None`) do nothing; else if the echo-suppression lock is
set, clear it and do nothing; else, for a signal that is not a `PySignal`
proxy and whose name does not start with an underscore, send one
`SIGNAL <id> <name> <encoded value>` push message.  `ws` states whether the
websocket is present. -/
def JS_signal_changed (ws : Bool) (p : PairJSState) (s : JSSignalState) :
    PairJSState × List SignalMsg :=
  if ws = false then (p, [])
  else if p._signal_emit_lock then ({ p with _signal_emit_lock := false }, [])
  else if s.signal_type ≠ "PySignal" ∧ startsWithUnderscore s._name = false then
    (p, [{ id := p.id, name := s._name, txt := saves s.value }])
  else (p, [])

/-- Modelled from the spec: `self[name]._set(value)` where `_set` is the
react layer's signal assignment (the react module is not under src/).  Per
the spec's data flow, a write to a signal stores the value, advances the
update timestamp, and triggers the owning instance's signal-changed
notification.  When the named signal does not exist, `self[name]` is
undefined and the method call on it raises; this is the `none` result. -/
def signal_set (ws : Bool) (p : PairJSState) (n : String) (v : Value) :
    Option (PairJSState × List SignalMsg) :=
  match findSignal p n with
  | none => none
  | some s =>
    let s2 : JSSignalState := { s with value := v, _timestamp := s._timestamp + 1 }
    some (JS_signal_changed ws (setSignalValue p n v) s2)

/-- `Pair.JS._set_signal_from_py` (pair.py lines 311-315): set the
echo-suppression lock, decode the text, then assign the value to the named
signal.  An `error` result is the exception escaping when the named signal
does not exist; it carries the instance state at that point (the lock
already set). -/
def JS_set_signal_from_py (ws : Bool) (p : PairJSState) (n text : String) :
    Except PairJSState (PairJSState × List SignalMsg) :=
  let p1 := { p with _signal_emit_lock := true }
  match signal_set ws p1 n (loads text) with
  | none => .error p1
  | some r => .ok r

/-- `Pair.JS._link_js_signal` (pair.py lines 331-338): on `link`, record the
name in `_linked_signals`, then, if the named signal's timestamp exceeds 1,
synthesize a `_signal_changed` call for it (catch-up emission); on unlink,
delete the name if recorded.  `none` is the exception raised when linking a
name with no signal (`self[name]` undefined). -/
def JS_link_js_signal (ws : Bool) (p : PairJSState) (n : String) (link : Bool) :
    Option (PairJSState × List SignalMsg) :=
  if link then
    let p1 : PairJSState :=
      { p with _linked_signals :=
          if p._linked_signals.contains n then p._linked_signals
          else p._linked_signals ++ [n] }
    match findSignal p1 n with
    | none => none
    | some s =>
      if s._timestamp > 1 then some (JS_signal_changed ws p1 s)
      else some (p1, [])
  else
    if p._linked_signals.contains n then
      some ({ p with _linked_signals := p._linked_signals.erase n }, [])
    else some (p, [])

/- ## Concrete instances used by counterexamples and witnesses -/

/-- Construction trace exhibiting an id collision: class A1 at counter 1 and
class A at counter 11 both produce the id A11. -/
def C5trace : List String :=
  ["A1", "B", "B", "B", "B", "B", "B", "B", "B", "B", "A"]

/-- A fresh JS-proxy signal with no subscribers, as `JSSignal.__init__`
leaves it. -/
def C2signal : JSSignalPyState :=
  { name := "value", _linked := false, _downstream := [] }

/-- Two subscribers attach to a fresh JSSignal, then both detach; the
commands sent in that order. -/
def C2run : JSSignalPyState × List Cmd :=
  let r1 := JSSignal_subscribe ("P1") C2signal ("a")
  let r2 := JSSignal_subscribe ("P1") r1.1 ("b")
  let r3 := JSSignal_unsubscribe ("P1") r2.1 ("a")
  let r4 := JSSignal_unsubscribe ("P1") r3.1 ("b")
  (r4.1, r1.2 ++ r2.2 ++ r3.2 ++ r4.2)

/-- A JS-side instance with one plain signal named count whose timestamp
is 1: nonzero, but not greater than 1. -/
def C4pair : PairJSState :=
  { id := "P1", _signal_emit_lock := false, _linked_signals := [],
    signals := [{ _name := "count", signal_type := "Signal",
                  value := Value.vint 5, _timestamp := 1 }] }

/-- A JS-side instance with one signal named count, used to apply an
inbound command for a name that does not exist. -/
def C7pair : PairJSState :=
  { id := "P1", _signal_emit_lock := false, _linked_signals := [],
    signals := [{ _name := "count", signal_type := "Signal",
                  value := Value.vint 0, _timestamp := 1 }] }

/-- A registry holding one live instance under id Pair1. -/
def C9reg : PairGlobals :=
  { _counter := 1, _instances := [("Pair1", 1)] }

/-- A JS-side instance with one plain signal count, target of an inbound
apply-command. -/
def C1pair : PairJSState :=
  { id := "P1", _signal_emit_lock := false, _linked_signals := [],
    signals := [{ _name := "count", signal_type := "Signal",
                  value := Value.vnull, _timestamp := 1 }] }

/-- A JS-side instance whose signal count was explicitly set (timestamp 2)
before a link notification arrives. -/
def C4pairW : PairJSState :=
  { id := "P1", _signal_emit_lock := false, _linked_signals := [],
    signals := [{ _name := "count", signal_type := "Signal",
                  value := Value.vint 7, _timestamp := 2 }] }

/- ## Helper lemmas -/

/-- Evaluating the fuelled digit function at sufficient fuel recovers the
number, hence the digit list determines the number. -/
theorem ofDigitsRev_natDigitsRev : ∀ fuel n, n ≤ fuel →
    ofDigitsRev (natDigitsRev fuel n) = n := by
  intro fuel
  induction fuel with
  | zero =>
    intro n h
    interval_cases n
    simp [natDigitsRev, ofDigitsRev]
  | succ f ih =>
    intro n h
    by_cases h0 : n = 0
    · simp [natDigitsRev, h0, ofDigitsRev]
    · have hd : n / 10 < n := Nat.div_lt_self (Nat.pos_of_ne_zero h0) (by omega)
      simp only [natDigitsRev, h0, if_false, ofDigitsRev]
      rw [ih (n / 10) (by omega)]
      omega

/-- Every produced digit is below 10. -/
theorem natDigitsRev_lt : ∀ fuel n d, d ∈ natDigitsRev fuel n → d < 10 := by
  intro fuel
  induction fuel with
  | zero => intro n d hd; simp [natDigitsRev] at hd
  | succ f ih =>
    intro n d hd
    by_cases h0 : n = 0
    · simp [natDigitsRev, h0] at hd
    · simp only [natDigitsRev, h0, if_false, List.mem_cons] at hd
      rcases hd with h | h
      · subst h; exact Nat.mod_lt _ (by omega)
      · exact ih _ _ h

/-- Digit characters of digits below 10 are pairwise distinct. -/
theorem digitChar_inj_aux : ∀ a < 10, ∀ b < 10,
    Nat.digitChar a = Nat.digitChar b → a = b := by decide

/-- Injectivity of the digit character map on digits. -/
theorem digitChar_inj : ∀ a b : Nat, a < 10 → b < 10 →
    Nat.digitChar a = Nat.digitChar b → a = b :=
  fun a b ha hb h => digitChar_inj_aux a ha b hb h

/-- Mapping digit lists to characters is injective. -/
theorem map_digitChar_inj : ∀ l1 l2 : List Nat, (∀ d ∈ l1, d < 10) → (∀ d ∈ l2, d < 10) →
    l1.map Nat.digitChar = l2.map Nat.digitChar → l1 = l2 := by
  intro l1
  induction l1 with
  | nil => intro l2 _ _ h; cases l2 <;> simp_all
  | cons a t ih =>
    intro l2 h1 h2 h
    cases l2 with
    | nil => simp at h
    | cons b t2 =>
      simp only [List.map_cons, List.cons.injEq] at h
      have ha := h1 a (by simp)
      have hb := h2 b (by simp)
      have hab : a = b := digitChar_inj a b ha hb h.1
      subst hab
      rw [ih t2 (fun d hd => h1 d (by simp [hd])) (fun d hd => h2 d (by simp [hd])) h.2]

/-- The decimal representation is injective. -/
theorem natStr_inj : ∀ m n : Nat, natStr m = natStr n → m = n := by
  intro m n h
  by_cases hm : m = 0 <;> by_cases hn : n = 0
  · omega
  · exfalso
    simp only [natStr, hm, hn, if_true, if_false] at h
    have hd : ("0" : String).data =
        (String.mk (((natDigitsRev n n).map Nat.digitChar).reverse)).data := by rw [h]
    simp only [String.data] at hd
    have h2 : ((natDigitsRev n n).map Nat.digitChar).reverse = ['0'] := hd.symm
    have h3 : (natDigitsRev n n).map Nat.digitChar = ['0'] := by
      have h4 := congrArg List.reverse h2
      simpa using h4
    have h4 : natDigitsRev n n = [0] := by
      apply map_digitChar_inj _ _ (fun d hd2 => natDigitsRev_lt _ _ _ hd2)
        (by intro d hd2; simp at hd2; omega)
      rw [h3]; rfl
    have h5 := ofDigitsRev_natDigitsRev n n (le_refl n)
    rw [h4] at h5
    simp [ofDigitsRev] at h5
    omega
  · exfalso
    simp only [natStr, hm, hn, if_true, if_false] at h
    have hd := congrArg String.data h
    simp only [String.data] at hd
    have h2 : ((natDigitsRev m m).map Nat.digitChar).reverse = ['0'] := hd
    have h3 : (natDigitsRev m m).map Nat.digitChar = ['0'] := by
      have h4 := congrArg List.reverse h2
      simpa using h4
    have h4 : natDigitsRev m m = [0] := by
      apply map_digitChar_inj _ _ (fun d hd2 => natDigitsRev_lt _ _ _ hd2)
        (by intro d hd2; simp at hd2; omega)
      rw [h3]; rfl
    have h5 := ofDigitsRev_natDigitsRev m m (le_refl m)
    rw [h4] at h5
    simp [ofDigitsRev] at h5
    omega
  · simp only [natStr, hm, hn, if_false] at h
    have hd := congrArg String.data h
    simp only [String.data] at hd
    have h2 := List.reverse_injective hd
    have h3 := map_digitChar_inj _ _ (fun d hd2 => natDigitsRev_lt _ _ _ hd2)
      (fun d hd2 => natDigitsRev_lt _ _ _ hd2) h2
    have h5 := ofDigitsRev_natDigitsRev m m (le_refl m)
    have h6 := ofDigitsRev_natDigitsRev n n (le_refl n)
    rw [h3] at h5
    omega

/-- Ids built from the same class name and different counters differ. -/
theorem mkId_inj_of_eq_name (nm : String) (a b : Nat) (h : mkId nm a = mkId nm b) :
    a = b := by
  apply natStr_inj
  apply String.ext
  have hd := congrArg String.data h
  simp only [mkId, String.data_append] at hd
  exact List.append_cancel_left hd

/-- The id issued at position `i` of a construction trace. -/
theorem construct_ids_getD : ∀ (names : List String) (c i : Nat), i < names.length →
    (construct_ids c names).getD i ("") = mkId (names.getD i ("")) (c + i + 1) := by
  intro names
  induction names with
  | nil => intro c i h; simp at h
  | cons nm rest ih =>
    intro c i h
    cases i with
    | zero => simp [construct_ids]
    | succ k =>
      simp only [construct_ids, List.getD_cons_succ]
      rw [ih (c + 1) k (by simpa using h)]
      ring_nf

/- ## Claims -/

/-- C5 counterexample: ids are not globally unique across all constructions.
In the trace where class A1 is constructed first (counter 1) and class A is
constructed eleventh (counter 11), both receive exactly the id A11; the
11-element trace therefore contains a duplicate id. -/
theorem C5_id_collision :
    (construct_ids 0 C5trace).getD 0 ("") = (construct_ids 0 C5trace).getD 10 ("") ∧
    (construct_ids 0 C5trace).getD 0 ("") = "A11" ∧
    (construct_ids 0 C5trace).length = 11 ∧
    decide ((construct_ids 0 C5trace).Nodup) = false := by
  decide

/-- C5 (amended): the construction counter is strictly increasing and never
decremented, so constructions of the same class always receive distinct ids
(of the form class name followed by the counter value), and the id issued at
a position of the trace is unchanged by any later constructions (immutable
once assigned).  Global uniqueness across different class names can fail, as
the counterexample shows. -/
theorem C5_ids_monotonic_and_distinct_per_class (c i j : Nat) (names : List String)
    (hj : j < names.length) (hij : i < j)
    (hname : names.getD i ("") = names.getD j ("")) :
    c + i + 1 < c + j + 1 ∧
    (construct_ids c names).getD i ("") ≠ (construct_ids c names).getD j ("") ∧
    (∀ more : List String,
      (construct_ids c (names ++ more)).getD i ("") = (construct_ids c names).getD i ("")) := by
  refine ⟨by omega, ?_, ?_⟩
  · rw [construct_ids_getD names c i (by omega), construct_ids_getD names c j hj, hname]
    intro h
    have h2 := mkId_inj_of_eq_name _ _ _ h
    omega
  · intro more
    rw [construct_ids_getD names c i (by omega),
      construct_ids_getD (names ++ more) c i (by simp; omega)]
    congr 1
    exact List.getD_append _ _ _ _ (by omega)

/-- C5 witness: in the trace of two constructions of class A, the first id
A1 differs from the second id A2, the counter increases, and the first id is
stable under extending the trace. -/
theorem C5_witness :
    ((1 : Nat) < 2 ∧ (0 : Nat) < 1 ∧
      (["A", "A"] : List String).getD 0 ("") = (["A", "A"] : List String).getD 1 ("")) ∧
    (0 + 0 + 1 < 0 + 1 + 1 ∧
      (construct_ids 0 (["A", "A"])).getD 0 ("") ≠ (construct_ids 0 (["A", "A"])).getD 1 ("") ∧
      (∀ more : List String,
        (construct_ids 0 ((["A", "A"]) ++ more)).getD 0 ("") =
          (construct_ids 0 (["A", "A"])).getD 0 (""))) :=
  ⟨⟨by decide, by decide, by decide⟩,
    C5_ids_monotonic_and_distinct_per_class 0 0 1 (["A", "A"]) (by decide) (by decide) (by decide)⟩

/-- C6: `Pair.__init__` performs, in order: assign the id and register the
instance, send the remote-construction command carrying that id, invoke the
`_init` hook, then initialize the signals; and immediately afterwards a
registry lookup of the new id returns the just-created instance. -/
theorem C6_construction_order_and_registration (g : PairGlobals) (clsName : String) :
    (Pair_init_steps g clsName).2.2 =
      [ InitEvent.registerInstance (Pair_init_steps g clsName).2.1,
        InitEvent.execCmd (Cmd.construct (Pair_init_steps g clsName).2.1 clsName),
        InitEvent.initHook,
        InitEvent.initSignals ] ∧
    get_instance_by_id (Pair_init_steps g clsName).1 (Pair_init_steps g clsName).2.1 =
      some (g._counter + 1) := by
  constructor
  · rfl
  · simp [Pair_init_steps, get_instance_by_id]

/-- C3: when a Python-side signal changes, a JSSignal proxy produces no
outbound command, while any other signal produces exactly one apply-command
addressed by the instance id and signal name, carrying the externally
serialized new value. -/
theorem C3_outbound_propagation (selfId : String) (sig : PySideSignal) :
    (sig.isJSSignal = true → Pair_signal_changed selfId sig = []) ∧
    (sig.isJSSignal = false →
      Pair_signal_changed selfId sig =
        [Cmd.setSignalFromPy selfId sig.name (saves sig.value)]) := by
  constructor <;> intro h <;> simp [Pair_signal_changed, h]

/-- C3 witness: a concrete plain signal produces exactly its one
apply-command, and a concrete JSSignal proxy produces none. -/
theorem C3_witness :
    Pair_signal_changed ("Counter1")
        { name := "count", isJSSignal := false, value := Value.vint 5 } =
      [Cmd.setSignalFromPy ("Counter1") ("count") (saves (Value.vint 5))] ∧
    Pair_signal_changed ("Counter1")
        { name := "mouse", isJSSignal := true, value := Value.vnull } = [] :=
  ⟨(C3_outbound_propagation ("Counter1") _).2 rfl,
    (C3_outbound_propagation ("Counter1") _).1 rfl⟩

/-- C2: evaluating the code on a fresh JSSignal that gains two subscribers
and then loses both: a link notification is sent on every subscribe (two
commands for the two subscribers, not one for the 0-to-1 transition), and no
unlink notification is ever sent on the 1-to-0 transition, because `_linked`
is initialized to False and never set, so the unlink branch cannot fire. -/
theorem C2_every_subscribe_relinks_and_never_unlinks :
    C2run = ({ name := "value", _linked := false, _downstream := [] },
      [Cmd.linkJsSignal ("P1") ("value") true,
       Cmd.linkJsSignal ("P1") ("value") true]) := by
  decide

/-- C10: a JS-side changed signal whose name starts with an underscore, or
whose signal type is the Python-proxy type PySignal, never produces an
outbound SIGNAL push message, in any instance state and regardless of
linking. -/
theorem C10_private_and_pyproxy_never_pushed (ws : Bool) (p : PairJSState)
    (s : JSSignalState)
    (h : startsWithUnderscore s._name = true ∨ s.signal_type = "PySignal") :
    (JS_signal_changed ws p s).2 = [] := by
  unfold JS_signal_changed
  rcases h with h | h <;> split_ifs with h1 h2 h3 <;> simp_all

/-- C10 witness: a changed signal named with a leading underscore produces no
message even when the websocket is up, the lock is clear and the signal is
linked; likewise for a PySignal proxy. -/
theorem C10_witness :
    startsWithUnderscore ("_timer") = true ∧
    (JS_signal_changed true
      { id := "P1", _signal_emit_lock := false, _linked_signals := ["_timer"],
        signals := [] }
      { _name := "_timer", signal_type := "Signal", value := Value.vint 1,
        _timestamp := 3 }).2 = [] :=
  ⟨by decide,
    C10_private_and_pyproxy_never_pushed true _ _ (Or.inl (by decide))⟩

/-- Updating the named signal relocates the stored value and timestamp under
first-match lookup. -/
theorem find?_update_signals (l : List JSSignalState) (n : String) (v : Value) :
    (l.map (fun s => if s._name == n then
        { s with value := v, _timestamp := s._timestamp + 1 } else s)).find?
      (fun s => s._name == n) =
    (l.find? (fun s => s._name == n)).map
      (fun s => { s with value := v, _timestamp := s._timestamp + 1 }) := by
  induction l with
  | nil => rfl
  | cons a t ih =>
    by_cases h : a._name = n
    · have h1 : (if (a._name == n) = true then
          { a with value := v, _timestamp := a._timestamp + 1 } else a) =
          { a with value := v, _timestamp := a._timestamp + 1 } := by simp [h]
      simp only [List.map_cons, h1]
      rw [List.find?_cons_of_pos _ (by simp [h]), List.find?_cons_of_pos _ (by simp [h])]
      rfl
    · have h1 : (if (a._name == n) = true then
          { a with value := v, _timestamp := a._timestamp + 1 } else a) = a := by
        simp [h]
      simp only [List.map_cons, h1]
      rw [List.find?_cons_of_neg _ (by simp [h]), List.find?_cons_of_neg _ (by simp [h])]
      exact ih

/-- Signal lookup after a signal assignment. -/
theorem findSignal_setSignalValue (p : PairJSState) (n : String) (v : Value) :
    findSignal (setSignalValue p n v) n =
      (findSignal p n).map
        (fun s => { s with value := v, _timestamp := s._timestamp + 1 }) := by
  unfold findSignal setSignalValue
  exact find?_update_signals p.signals n v

/-- Appending a member does not disturb an existing first-match lookup. -/
theorem lookupMember_append_of_some (ms : List (String × Member)) (x : String × Member)
    (n : String) (m : Member) (h : lookupMember ms n = some m) :
    lookupMember (ms ++ [x]) n = some m := by
  unfold lookupMember at *
  rw [List.find?_append]
  obtain ⟨q, hq, hm⟩ := Option.map_eq_some'.1 h
  rw [hq]
  simp [Option.or, hm]

/-- A non-signal member is neither kind of proxy. -/
theorem not_proxy_of_not_signal (m : Member) (h : isSignalMember m = false) :
    isPySignalProxy m = false ∧ isJSSignalProxy m = false := by
  cases m <;> simp_all [isSignalMember, isPySignalProxy, isJSSignalProxy]

/-- The Python-to-JS mirroring loop never overrides an existing member:
whatever a name resolved to before the loop, it still resolves to it after. -/
theorem mirrorPyToJS_preserves : ∀ (py js : List (String × Member)) (n : String) (m : Member),
    lookupMember js n = some m →
    lookupMember (mirrorPyToJS py js).1 n = some m := by
  intro py
  induction py with
  | nil => intro js n m h; exact h
  | cons a rest ih =>
    intro js n m h
    obtain ⟨an, av⟩ := a
    by_cases hsig : (isSignalMember av && !(isJSSignalProxy av)) = true
    · rw [mirrorPyToJS, if_pos hsig]
      split
      · exact ih _ n m (lookupMember_append_of_some js _ n m h)
      · split
        · exact ih _ n m h
        · exact ih _ n m h
    · rw [mirrorPyToJS, if_neg hsig]
      exact ih js n m h

/-- A Python signal colliding with a non-signal JS member is warned about. -/
theorem mirrorPyToJS_warns : ∀ (py js : List (String × Member)) (n : String) (v m : Member),
    (n, v) ∈ py → isSignalMember v = true → isJSSignalProxy v = false →
    lookupMember js n = some m → isSignalMember m = false →
    n ∈ (mirrorPyToJS py js).2 := by
  intro py
  induction py with
  | nil => intro js n v m hmem; simp at hmem
  | cons a rest ih =>
    intro js n v m hmem hv1 hv2 hlk hm
    obtain ⟨an, av⟩ := a
    rcases List.mem_cons.1 hmem with hhead | htail
    · obtain ⟨hn, hv⟩ := Prod.mk.injEq .. ▸ hhead
      subst hn
      subst hv
      have hsig : (isSignalMember v && !(isJSSignalProxy v)) = true := by
        simp [hv1, hv2]
      rw [mirrorPyToJS, if_pos hsig]
      split
      · next heq => rw [hlk] at heq; cases heq
      · next m2 heq =>
        rw [hlk] at heq
        injection heq with heq2
        subst heq2
        rw [if_neg (by simp [(not_proxy_of_not_signal m hm).1])]
        exact List.mem_cons_self _ _
    · by_cases hsig : (isSignalMember av && !(isJSSignalProxy av)) = true
      · rw [mirrorPyToJS, if_pos hsig]
        split
        · exact ih _ n v m htail hv1 hv2 (lookupMember_append_of_some js _ n m hlk) hm
        · split
          · exact ih _ n v m htail hv1 hv2 hlk hm
          · exact List.mem_cons_of_mem _ (ih _ n v m htail hv1 hv2 hlk hm)
      · rw [mirrorPyToJS, if_neg hsig]
        exact ih _ n v m htail hv1 hv2 hlk hm

/-- The JS-to-Python mirroring loop never overrides an existing member. -/
theorem mirrorJSToPy_preserves : ∀ (jsb py : List (String × Member)) (n : String) (m : Member),
    lookupMember py n = some m →
    lookupMember (mirrorJSToPy jsb py).1 n = some m := by
  intro jsb
  induction jsb with
  | nil => intro py n m h; exact h
  | cons a rest ih =>
    intro py n m h
    obtain ⟨an, av⟩ := a
    by_cases hsig : (isSignalMember av && !(isPySignalProxy av)) = true
    · rw [mirrorJSToPy, if_pos hsig]
      split
      · exact ih _ n m (lookupMember_append_of_some py _ n m h)
      · split
        · exact ih _ n m h
        · exact ih _ n m h
    · rw [mirrorJSToPy, if_neg hsig]
      exact ih py n m h

/-- A JS signal colliding with a non-signal Python member is warned about. -/
theorem mirrorJSToPy_warns : ∀ (jsb py : List (String × Member)) (n : String) (v m : Member),
    (n, v) ∈ jsb → isSignalMember v = true → isPySignalProxy v = false →
    lookupMember py n = some m → isSignalMember m = false →
    n ∈ (mirrorJSToPy jsb py).2 := by
  intro jsb
  induction jsb with
  | nil => intro py n v m hmem; simp at hmem
  | cons a rest ih =>
    intro py n v m hmem hv1 hv2 hlk hm
    obtain ⟨an, av⟩ := a
    rcases List.mem_cons.1 hmem with hhead | htail
    · obtain ⟨hn, hv⟩ := Prod.mk.injEq .. ▸ hhead
      subst hn
      subst hv
      have hsig : (isSignalMember v && !(isPySignalProxy v)) = true := by
        simp [hv1, hv2]
      rw [mirrorJSToPy, if_pos hsig]
      split
      · next heq => rw [hlk] at heq; cases heq
      · next m2 heq =>
        rw [hlk] at heq
        injection heq with heq2
        subst heq2
        rw [if_neg (by simp [(not_proxy_of_not_signal m hm).2])]
        exact List.mem_cons_self _ _
    · by_cases hsig : (isSignalMember av && !(isPySignalProxy av)) = true
      · rw [mirrorJSToPy, if_pos hsig]
        split
        · exact ih _ n v m htail hv1 hv2 (lookupMember_append_of_some py _ n m hlk) hm
        · split
          · exact ih _ n v m htail hv1 hv2 hlk hm
          · exact List.mem_cons_of_mem _ (ih _ n v m htail hv1 hv2 hlk hm)
      · rw [mirrorJSToPy, if_neg hsig]
        exact ih _ n v m htail hv1 hv2 hlk hm

/-- C1: processing an inbound apply-command for an existing signal sets the
suppress-next-echo flag before the assignment, so the triggered
signal-changed notification consumes the flag instead of sending: the
assignment is performed (the new value is stored and the timestamp
advances), no outbound message is generated as a consequence, and the flag
(the single Boolean slot of the instance) is cleared again afterwards,
whatever its prior state. -/
theorem C1_echo_suppression_single_slot (p : PairJSState) (n text : String)
    (s : JSSignalState) (h : findSignal p n = some s) :
    ∃ p2 : PairJSState,
      JS_set_signal_from_py true p n text = .ok (p2, []) ∧
      p2._signal_emit_lock = false ∧
      findSignal p2 n =
        some { s with value := loads text, _timestamp := s._timestamp + 1 } := by
  have h1 : findSignal { p with _signal_emit_lock := true } n = some s := h
  refine ⟨{ setSignalValue { p with _signal_emit_lock := true } n (loads text) with
      _signal_emit_lock := false }, ?_, rfl, ?_⟩
  · have hl : (setSignalValue { p with _signal_emit_lock := true } n
        (loads text))._signal_emit_lock = true := rfl
    simp only [JS_set_signal_from_py, signal_set, h1, JS_signal_changed, hl]
    simp
  · have h2 : findSignal { setSignalValue { p with _signal_emit_lock := true } n (loads text)
        with _signal_emit_lock := false } n =
        findSignal (setSignalValue { p with _signal_emit_lock := true } n (loads text)) n := rfl
    rw [h2, findSignal_setSignalValue, h1]
    rfl

/-- C1 witness: applying an inbound value to the concrete instance stores
the decoded value, emits nothing, and leaves the echo flag cleared. -/
theorem C1_witness :
    (findSignal C1pair ("count") =
      some { _name := "count", signal_type := "Signal",
             value := Value.vnull, _timestamp := 1 }) ∧
    (∃ p2 : PairJSState,
      JS_set_signal_from_py true C1pair ("count") ("true") = .ok (p2, []) ∧
      p2._signal_emit_lock = false ∧
      findSignal p2 ("count") =
        some { _name := "count", signal_type := "Signal",
               value := loads ("true"), _timestamp := 2 }) :=
  ⟨rfl, C1_echo_suppression_single_slot C1pair ("count") ("true")
    { _name := "count", signal_type := "Signal", value := Value.vnull, _timestamp := 1 } rfl⟩

/-- C4 counterexample: the catch-up condition in the code is timestamp
greater than 1, not timestamp nonzero.  On an instance whose signal count
has the nonzero timestamp 1, an inbound link-toggle to linked performs the
linking but sends no catch-up emission at all, where the claim requires
exactly one. -/
theorem C4_no_catchup_at_timestamp_one :
    (findSignal C4pair ("count")).map (fun s => s._timestamp) = some 1 ∧
    JS_link_js_signal true C4pair ("count") true =
      some ({ C4pair with _linked_signals := ["count"] }, []) := by
  constructor
  · rfl
  · rfl

/-- C4 (amended): when an inbound link-toggle transitions an existing
syncable signal (not a PySignal proxy, name not underscore-prefixed) to
linked while the echo lock is clear, the name is recorded as linked and
exactly one catch-up emission carrying the signal's current value is sent
if the signal's timestamp exceeds 1, and none otherwise. -/
theorem C4_catchup_iff_timestamp_gt_one (p : PairJSState) (n : String) (s : JSSignalState)
    (hlock : p._signal_emit_lock = false)
    (h : findSignal p n = some s)
    (ht : s.signal_type ≠ "PySignal")
    (hn : startsWithUnderscore s._name = false) :
    ∃ p1 : PairJSState,
      JS_link_js_signal true p n true =
        some (p1, if s._timestamp > 1 then
            [{ id := p.id, name := s._name, txt := saves s.value }] else []) ∧
      p1._linked_signals.contains n = true := by
  refine ⟨{ p with _linked_signals := if p._linked_signals.contains n then p._linked_signals
      else p._linked_signals ++ [n] }, ?_, ?_⟩
  · have h1 : findSignal { p with _linked_signals :=
        if p._linked_signals.contains n then p._linked_signals
        else p._linked_signals ++ [n] } n = some s := h
    have hl : ({ p with _linked_signals :=
        if p._linked_signals.contains n then p._linked_signals
        else p._linked_signals ++ [n] })._signal_emit_lock = false := hlock
    simp only [JS_link_js_signal, if_true, h1]
    by_cases hts : s._timestamp > 1
    · simp [hts, JS_signal_changed, hl, ht, hn, hlock]
    · simp [hts]
  · show (if p._linked_signals.contains n = true then p._linked_signals
        else p._linked_signals ++ [n]).contains n = true
    by_cases hc : p._linked_signals.contains n = true
    · rw [if_pos hc]; exact hc
    · rw [if_neg hc]
      simp [List.elem_iff]

/-- C4 witness: linking the concrete signal count with timestamp 2 records
the link and sends exactly one catch-up message carrying the current value. -/
theorem C4_witness :
    (findSignal C4pairW ("count") =
      some { _name := "count", signal_type := "Signal",
             value := Value.vint 7, _timestamp := 2 }) ∧
    (∃ p1 : PairJSState,
      JS_link_js_signal true C4pairW ("count") true =
        some (p1, if (2 : Nat) > 1 then
            [{ id := "P1", name := "count", txt := saves (Value.vint 7) }] else []) ∧
      p1._linked_signals.contains ("count") = true) :=
  ⟨rfl, C4_catchup_iff_timestamp_gt_one C4pairW ("count")
    { _name := "count", signal_type := "Signal", value := Value.vint 7, _timestamp := 2 }
    rfl rfl (by decide) (by decide)⟩

/-- C7 counterexample: an inbound apply-command naming the nonexistent
signal missing on a live instance is not logged-and-dropped with the
instance unaffected; instead the attribute access fails and the error
escapes, carrying the instance with the suppress-next-echo flag already set
(and never cleared). -/
theorem C7_unknown_signal_error_escapes :
    findSignal C7pair ("missing") = none ∧
    JS_set_signal_from_py true C7pair ("missing") ("5") =
      .error { C7pair with _signal_emit_lock := true } := by
  constructor
  · rfl
  · rfl

/-- C7 (amended): whenever an inbound apply-command names a signal absent
from the target instance, the handler fails with an error after having set
the suppress-next-echo flag; the message is not gracefully dropped and the
flag is left set. -/
theorem C7_unknown_signal_raises (ws : Bool) (p : PairJSState) (n text : String)
    (h : findSignal p n = none) :
    JS_set_signal_from_py ws p n text = .error { p with _signal_emit_lock := true } := by
  have h1 : findSignal { p with _signal_emit_lock := true } n = none := h
  simp only [JS_set_signal_from_py, signal_set, h1]

/-- C7 witness: the amended behaviour at the concrete instance. -/
theorem C7_witness :
    findSignal C7pair ("absent") = none ∧
    JS_set_signal_from_py false C7pair ("absent") ("5") =
      .error { C7pair with _signal_emit_lock := true } :=
  ⟨rfl, C7_unknown_signal_raises false C7pair ("absent") ("5") rfl⟩

/-- C8: a name collision between a signal and a pre-existing non-signal
attribute on the opposite side degrades softly in both mirroring
directions: the existing member still resolves unchanged after the loop
(the conflicting proxy is omitted), and the colliding name is emitted as a
warning.  Both mirroring functions are total, so class creation never
aborts. -/
theorem C8_collision_soft_failure :
    (∀ (py js : List (String × Member)) (n : String) (v m : Member),
      (n, v) ∈ py → isSignalMember v = true → isJSSignalProxy v = false →
      lookupMember js n = some m → isSignalMember m = false →
      lookupMember (mirrorPyToJS py js).1 n = some m ∧ n ∈ (mirrorPyToJS py js).2) ∧
    (∀ (jsb py : List (String × Member)) (n : String) (v m : Member),
      (n, v) ∈ jsb → isSignalMember v = true → isPySignalProxy v = false →
      lookupMember py n = some m → isSignalMember m = false →
      lookupMember (mirrorJSToPy jsb py).1 n = some m ∧ n ∈ (mirrorJSToPy jsb py).2) :=
  ⟨fun py js n v m hmem h1 h2 h3 h4 =>
    ⟨mirrorPyToJS_preserves py js n m h3, mirrorPyToJS_warns py js n v m hmem h1 h2 h3 h4⟩,
   fun jsb py n v m hmem h1 h2 h3 h4 =>
    ⟨mirrorJSToPy_preserves jsb py n m h3, mirrorJSToPy_warns jsb py n v m hmem h1 h2 h3 h4⟩⟩

/-- C8 witness: a plain Python signal count colliding with a non-signal JS
member leaves the JS member in place and warns; symmetrically for a JS
signal mouse colliding with a non-signal Python member. -/
theorem C8_witness :
    (lookupMember ([(("count" : String), Member.plainSignal false)])
        ("count") = some (Member.plainSignal false) ∧
      (lookupMember (mirrorPyToJS ([(("count" : String), Member.plainSignal false)])
          ([(("count" : String), Member.nonSignal)])).1 ("count") = some Member.nonSignal ∧
        ("count" : String) ∈ (mirrorPyToJS ([(("count" : String), Member.plainSignal false)])
          ([(("count" : String), Member.nonSignal)])).2)) ∧
    (lookupMember (mirrorJSToPy ([(("mouse" : String), Member.plainSignal false)])
        ([(("mouse" : String), Member.nonSignal)])).1 ("mouse") = some Member.nonSignal ∧
      ("mouse" : String) ∈ (mirrorJSToPy ([(("mouse" : String), Member.plainSignal false)])
        ([(("mouse" : String), Member.nonSignal)])).2) :=
  ⟨⟨by decide,
    C8_collision_soft_failure.1 _ _ ("count") (Member.plainSignal false) Member.nonSignal
      (by decide) (by decide) (by decide) (by decide) (by decide)⟩,
   C8_collision_soft_failure.2 _ _ ("mouse") (Member.plainSignal false) Member.nonSignal
      (by decide) (by decide) (by decide) (by decide) (by decide)⟩

/-- C9 counterexample: the encoded reference dictionary is tagged
Flexx-Pair, not Pair-Ref as the claim states. -/
theorem C9_tag_is_flexx_pair :
    (Pair_json ("Pair1")).typeTag = "Flexx-Pair" ∧
    (((Pair_json ("Pair1")).typeTag == "Pair-Ref") = false) := by
  decide

/-- C9 (amended): a Pair reference is encoded as a dictionary tagged
Flexx-Pair carrying the instance id; decoding performs a registry lookup,
returning the identical registered instance when it is live and none once
the instance has been collected (or was never issued). -/
theorem C9_roundtrip_registry (g : PairGlobals) (id : String) :
    (Pair_json id).typeTag = "Flexx-Pair" ∧
    Pair_from_json g (Pair_json id) = get_instance_by_id g id ∧
    (∀ tok : Nat, get_instance_by_id g id = some tok →
      Pair_from_json g (Pair_json id) = some tok) ∧
    Pair_from_json (collect_instance g id) (Pair_json id) = none := by
  refine ⟨rfl, rfl, fun tok h => h, ?_⟩
  show get_instance_by_id (collect_instance g id) id = none
  unfold get_instance_by_id collect_instance
  simp only [Option.map_eq_none']
  rw [List.find?_eq_none]
  intro x hx
  have hx2 := List.mem_filter.1 hx
  have hx3 : x.1 ≠ id := by
    have hb := hx2.2
    simpa [bne_iff_ne] using hb
  simp [hx3]

/-- C9 witness: the live instance registered as Pair1 decodes to itself,
and decodes to none after collection. -/
theorem C9_witness :
    Pair_from_json C9reg (Pair_json ("Pair1")) = some 1 ∧
    Pair_from_json (collect_instance C9reg ("Pair1")) (Pair_json ("Pair1")) = none :=
  ⟨(C9_roundtrip_registry C9reg ("Pair1")).2.2.1 1 rfl,
   (C9_roundtrip_registry C9reg ("Pair1")).2.2.2⟩
